import Mathlib

/-!
Verification development for the capability-gated adapter pattern in
src/src/main.cpp (MOCKING and MOCKING 2 sections).

The program under study is compile-time metaprogramming: type traits and
concepts that classify a candidate class by its structural shape (which
member functions it exposes), and class templates whose instantiation is
gated by those classifiers.  The shallow embedding reifies the structural
shape of a C++ class as a list of member-function signatures, and each
trait / concept / requires-expression as a Boolean function on shapes,
translated from the mechanism the source uses:

  - a member-call expression declval<T>().f() is well-formed exactly when
    the class exposes a member named f callable with zero arguments; this
    is the `callable` function below;
  - a compound-requirement with a return-type constraint additionally
    matches the return type; this is `hasMethodRet` below.

Run-time behavior (the mock object with settable state, the forwarding
wrappers, the processSensor dispatcher) is embedded with explicit state
passing: a member function of a class with state sigma becomes a function
from sigma to sigma (returning void) or from sigma to sigma x Int
(returning a value).  Console output produced inside a member function is
recorded in the state of the object that prints (DigitalSensor).
-/

/-- Return types occurring on the member functions of the embedded
classes: void, int and bool. -/
inductive RetTy where
  | void
  | int
  | bool
deriving DecidableEq, Repr

/-- One member function signature: its name, its number of parameters and
its return type.  All members of the embedded classes are non-static,
non-const and non-overloaded, so this is the whole structural shape of a
member. -/
structure Method where
  name : String
  arity : Nat
  ret : RetTy
deriving DecidableEq, Repr

/-- The compile-time structural shape of a C++ class: the list of its
public member functions. -/
abbrev Shape := List Method

/-- Well-formedness of the unevaluated member-call expression
declval<T>().n(a1, ..., ak): the class T exposes a member named n that
takes k arguments (of the right types; all parameters in the source are
int, and the only call with arguments is set_value, which is never
probed).  This is the check every SFINAE probe in the source performs. -/
def callable (T : Shape) (n : String) (k : Nat) : Bool :=
  T.any fun m => m.name == n && m.arity == k

/-- The compound requirement with return-type constraint, as in
lines 237-240 of main.cpp: T exposes a member named n with k parameters
whose return type is exactly r (std::same_as, not convertibility). -/
def hasMethodRet (T : Shape) (n : String) (k : Nat) (r : RetTy) : Bool :=
  T.any fun m => m.name == n && m.arity == k && m.ret == r

/-- main.cpp lines 153-157: the overload probe test_init.  The int-taking
overload is selected (yielding true_type) exactly when the expression
declval<U>().init() is well-formed; otherwise overload resolution falls
back to the variadic overload yielding false_type. -/
def test_init (T : Shape) : Bool :=
  callable T "init" 0

/-- main.cpp lines 159-163: the overload probe test_read, same mechanism
as test_init for the expression declval<U>().read(). -/
def test_read (T : Shape) : Bool :=
  callable T "read" 0

/-- main.cpp lines 150-169: the C++11-style probe-based trait.  Its value
member is the conjunction of the two probe results. -/
def is_digital_input_old_sfinae_type_trait (T : Shape) : Bool :=
  test_init T && test_read T

/-- main.cpp lines 172-179: the C++17 void_t trait.  The primary template
yields false; the partial specialization is selected, yielding true,
exactly when both decltype(declval<T>().init()) and
decltype(declval<T>().read()) are well-formed in the unevaluated void_t
context. -/
def is_digital_input_new_sfinae_type_trait (T : Shape) : Bool :=
  callable T "init" 0 && callable T "read" 0

/-- main.cpp lines 181-182: the _v variable template shorthand for the
void_t trait. -/
def is_digital_input_new_sfinae_type_trait_v (T : Shape) : Bool :=
  is_digital_input_new_sfinae_type_trait T

/-- main.cpp line 186: the C++20 concept requiring the two member-call
expressions t.init() and t.read() to be well-formed, with no return-type
constraint. -/
def digital_input_concept (T : Shape) : Bool :=
  callable T "init" 0 && callable T "read" 0

/-- main.cpp lines 236-240: the return-type-checking concept.  Requires
declval<T>().init() with result type exactly void and declval<T>().read()
with result type exactly int. -/
def DigitalInputConcept (T : Shape) : Bool :=
  hasMethodRet T "init" 0 RetTy.void && hasMethodRet T "read" 0 RetTy.int

/-- main.cpp lines 287-292: the inline requires-expression variable
template.  True exactly when t.init() and t.read() are both well-formed
member calls; no return-type constraint. -/
def is_digital_input_v (T : Shape) : Bool :=
  callable T "init" 0 && callable T "read" 0

/-- main.cpp lines 130-134: the reference class DigitalIn, never used at
run time; only its shape matters as the contract to be followed. -/
def DigitalIn.shape : Shape :=
  [⟨"init", 0, RetTy.void⟩, ⟨"read", 0, RetTy.int⟩]

/-- main.cpp lines 136-144: the conforming mock.  Its run-time state is
the private int field value_. -/
structure MockedDigitalInput where
  value_ : Int
deriving DecidableEq, Repr

/-- main.cpp line 138: void init() with empty body. -/
def MockedDigitalInput.init (s : MockedDigitalInput) : MockedDigitalInput :=
  s

/-- main.cpp line 139: int read() returns value_ and leaves the object
unchanged. -/
def MockedDigitalInput.read (s : MockedDigitalInput) : MockedDigitalInput × Int :=
  (s, s.value_)

/-- main.cpp line 141: void set_value(int v) assigns value_ = v. -/
def MockedDigitalInput.set_value (_s : MockedDigitalInput) (v : Int) : MockedDigitalInput :=
  ⟨v⟩

/-- Structural shape of MockedDigitalInput: init() -> void, read() -> int,
set_value(int) -> void. -/
def MockedDigitalInput.shape : Shape :=
  [⟨"init", 0, RetTy.void⟩, ⟨"read", 0, RetTy.int⟩, ⟨"set_value", 1, RetTy.void⟩]

/-- main.cpp line 146: class MalformedDigitalInput with no members. -/
inductive MalformedDigitalInput where
  | mk
deriving DecidableEq, Repr

/-- Structural shape of MalformedDigitalInput: no member functions. -/
def MalformedDigitalInput.shape : Shape :=
  []

/-- main.cpp lines 275-279: DigitalSensor.  Its init() prints a line, so
its run-time state records the console lines it has printed. -/
structure DigitalSensor where
  out : List String
deriving DecidableEq, Repr

/-- main.cpp line 277: void init() prints "Sensor initialized". -/
def DigitalSensor.init (s : DigitalSensor) : DigitalSensor :=
  ⟨s.out ++ ["Sensor initialized"]⟩

/-- main.cpp line 278: bool read() returns true; the bool is carried as
the integral value 1 (the value it converts to and prints as). -/
def DigitalSensor.read (s : DigitalSensor) : DigitalSensor × Int :=
  (s, 1)

/-- Structural shape of DigitalSensor: init() -> void, read() -> bool. -/
def DigitalSensor.shape : Shape :=
  [⟨"init", 0, RetTy.void⟩, ⟨"read", 0, RetTy.bool⟩]

/-- main.cpp lines 281-285: AnalogSensor, the structural near miss. -/
inductive AnalogSensor where
  | mk
deriving DecidableEq, Repr

/-- main.cpp line 283: void setup() with empty body. -/
def AnalogSensor.setup (s : AnalogSensor) : AnalogSensor :=
  s

/-- main.cpp line 284: int getValue() returns 42. -/
def AnalogSensor.getValue (s : AnalogSensor) : AnalogSensor × Int :=
  (s, 42)

/-- Structural shape of AnalogSensor: setup() -> void, getValue() -> int;
neither init nor read. -/
def AnalogSensor.shape : Shape :=
  [⟨"setup", 0, RetTy.void⟩, ⟨"getValue", 0, RetTy.int⟩]

/-- main.cpp lines 202-224: the SFINAE-gated wrapper class template.  The
default template argument enable_if_t<is_digital_input_new_sfinae_type_trait_v<DIn>>
makes the type ill-formed (not even nameable) unless the trait holds, and
the static_assert restates the same condition.  In the embedding, a value
of this type exists exactly when the gate holds, so a proof of the gate is
the (only) content of the type. -/
structure ButtonWithSfinae (DIn : Shape) where
  gate : is_digital_input_new_sfinae_type_trait_v DIn = true

/-- main.cpp lines 242-255: the concept-gated wrapper class template,
gated by the return-type-checking DigitalInputConcept. -/
structure ButtonWithConcept (DIn : Shape) where
  gate : DigitalInputConcept DIn = true

/-- Run-time model of a conforming collaborator class: its structural
shape together with the state-passing semantics of its init and read
members.  The wrapper holds a non-owning pointer to such an object and
forwards to it; the embedding passes the pointed-to state explicitly. -/
structure Collaborator (σ : Type) where
  shape : Shape
  init : σ → σ
  read : σ → σ × Int

/-- main.cpp lines 213-216: ButtonWithSfinae::init forwards to the
collaborator init through the stored pointer. -/
def ButtonWithSfinae.init {σ : Type} (M : Collaborator σ) (s : σ) : σ :=
  M.init s

/-- main.cpp lines 218-220: ButtonWithSfinae::read forwards to the
collaborator read and returns its result unmodified. -/
def ButtonWithSfinae.read {σ : Type} (M : Collaborator σ) (s : σ) : σ × Int :=
  M.read s

/-- main.cpp lines 246-249: ButtonWithConcept::init forwards to the
collaborator init. -/
def ButtonWithConcept.init {σ : Type} (M : Collaborator σ) (s : σ) : σ :=
  M.init s

/-- main.cpp lines 250-252: ButtonWithConcept::read forwards to the
collaborator read and returns its result unmodified. -/
def ButtonWithConcept.read {σ : Type} (M : Collaborator σ) (s : σ) : σ × Int :=
  M.read s

/-- A sequence of n consecutive ButtonWithSfinae::read calls on the same
button, threading the collaborator state and collecting the returned
values in order. -/
def ButtonWithSfinae.readSeq {σ : Type} (M : Collaborator σ) : Nat → σ → σ × List Int
  | 0, s => (s, [])
  | Nat.succ n, s =>
      let p := ButtonWithSfinae.read M s
      let q := ButtonWithSfinae.readSeq M n p.1
      (q.1, p.2 :: q.2)

/-- The MockedDigitalInput collaborator model used by test_button_sfinae
and test_button_concept (main.cpp lines 226-233 and 257-264). -/
def MockedDigitalInput.collab : Collaborator MockedDigitalInput :=
  ⟨MockedDigitalInput.shape, MockedDigitalInput.init, MockedDigitalInput.read⟩

/-- Run-time model of an arbitrary candidate class for processSensor: its
structural shape, the semantics of its init and read members when the
shape exposes them (and none when it does not — the fields are tied to
the shape, so a class without the member has no semantics for it). -/
structure Candidate (σ : Type) where
  shape : Shape
  init? : Option (σ → σ)
  read? : Option (σ → σ × Int)
  init_iff : init?.isSome = callable shape "init" 0
  read_iff : read?.isSome = callable shape "read" 0

/-- The init member of a candidate whose shape exposes init(). -/
def Candidate.initFn {σ : Type} (M : Candidate σ) (h : callable M.shape "init" 0 = true) : σ → σ :=
  M.init?.get (by rw [M.init_iff]; exact h)

/-- The read member of a candidate whose shape exposes read(). -/
def Candidate.readFn {σ : Type} (M : Candidate σ) (h : callable M.shape "read" 0 = true) : σ → σ × Int :=
  M.read?.get (by rw [M.read_iff]; exact h)

/-- Which member functions a processSensor call invoked on its sensor. -/
inductive MethodCall where
  | init
  | read
deriving DecidableEq, Repr

/-- The console report printed by processSensor: the digital-path line
"Digital data: <data>" with its bool payload, or the fallback line
"Not a digital input sensor". -/
inductive Report where
  | digitalData (data : Bool)
  | notDigital
deriving DecidableEq, Repr

/-- main.cpp lines 295-304: processSensor.  The branch is chosen by
if constexpr on is_digital_input_v at the type of the sensor; the digital
branch calls sensor.init(), then bool data = sensor.read() (int converts
to bool as nonzero) and prints the data; the fallback branch calls
nothing and prints the unsupported line.  The result is the final sensor
state, the members invoked, and the report printed. -/
def processSensor {σ : Type} (M : Candidate σ) (s : σ) : σ × List MethodCall × Report :=
  if h : is_digital_input_v M.shape = true then
    have hv : (callable M.shape "init" 0 && callable M.shape "read" 0) = true := h
    have hi : callable M.shape "init" 0 = true := by
      rw [Bool.and_eq_true] at hv
      exact hv.1
    have hr : callable M.shape "read" 0 = true := by
      rw [Bool.and_eq_true] at hv
      exact hv.2
    let s1 := M.initFn hi s
    let p := M.readFn hr s1
    (p.1, [MethodCall.init, MethodCall.read], Report.digitalData (p.2 != 0))
  else
    (s, [], Report.notDigital)

/-- The MockedDigitalInput candidate model: both members present. -/
def MockedDigitalInput.candidate : Candidate MockedDigitalInput :=
  ⟨MockedDigitalInput.shape, some MockedDigitalInput.init, some MockedDigitalInput.read, rfl, rfl⟩

/-- The DigitalSensor candidate model used by test_digital_sensor
(main.cpp lines 307-318): both members present. -/
def DigitalSensor.candidate : Candidate DigitalSensor :=
  ⟨DigitalSensor.shape, some DigitalSensor.init, some DigitalSensor.read, rfl, rfl⟩

/-- The AnalogSensor candidate model: neither init nor read exists, so
neither has semantics. -/
def AnalogSensor.candidate : Candidate AnalogSensor :=
  ⟨AnalogSensor.shape, none, none, rfl, rfl⟩

/-- The MalformedDigitalInput candidate model: no members at all. -/
def MalformedDigitalInput.candidate : Candidate MalformedDigitalInput :=
  ⟨MalformedDigitalInput.shape, none, none, rfl, rfl⟩

/-- A second candidate with the structural shape of MockedDigitalInput
but a different state type and different member semantics: used to check
that the verdict depends on the shape alone. -/
def mockedShapeUnitCandidate : Candidate Unit :=
  ⟨MockedDigitalInput.shape, some (fun s => s), some (fun s => (s, 7)), rfl, rfl⟩

/-- If a member with a given name, arity and return type exists, then a
member call of that name and arity is well-formed. -/
theorem hasMethodRet_callable {T : Shape} {n : String} {k : Nat} {r : RetTy}
    (h : hasMethodRet T n k r = true) : callable T n k = true := by
  simp only [hasMethodRet, List.any_eq_true, Bool.and_eq_true, beq_iff_eq] at h
  obtain ⟨m, hm, ⟨⟨hn, hk⟩, _⟩⟩ := h
  simp only [callable, List.any_eq_true, Bool.and_eq_true, beq_iff_eq]
  exact ⟨m, hm, hn, hk⟩

/-- The return-type-checking concept is at least as strong as the
name-based requires-expression predicate. -/
theorem DigitalInputConcept_implies_v {T : Shape}
    (h : DigitalInputConcept T = true) : is_digital_input_v T = true := by
  simp only [DigitalInputConcept, Bool.and_eq_true] at h
  simp only [is_digital_input_v, Bool.and_eq_true]
  exact ⟨hasMethodRet_callable h.1, hasMethodRet_callable h.2⟩

/-- Claim C1: for every candidate shape D on which the capability
predicate is false, neither gated wrapper can be instantiated: no value
of ButtonWithSfinae D or ButtonWithConcept D exists, so no run-time path
can reach a wrapper init or read over a non-conforming type. -/
theorem nonconforming_type_cannot_instantiate_wrapper (D : Shape)
    (h : is_digital_input_v D = false) :
    (ButtonWithSfinae D → False) ∧ (ButtonWithConcept D → False) := by
  constructor
  · intro b
    have hg : is_digital_input_v D = true := b.gate
    rw [h] at hg
    exact Bool.false_ne_true hg
  · intro b
    have hg := DigitalInputConcept_implies_v b.gate
    rw [h] at hg
    exact Bool.false_ne_true hg

/-- Witness for C1: the predicate is false on MalformedDigitalInput and
AnalogSensor, and on each the theorem rejects both wrappers. -/
theorem nonconforming_type_cannot_instantiate_wrapper_witness :
    (is_digital_input_v MalformedDigitalInput.shape = false ∧
      (ButtonWithSfinae MalformedDigitalInput.shape → False) ∧
      (ButtonWithConcept MalformedDigitalInput.shape → False)) ∧
    (is_digital_input_v AnalogSensor.shape = false ∧
      (ButtonWithSfinae AnalogSensor.shape → False) ∧
      (ButtonWithConcept AnalogSensor.shape → False)) :=
  ⟨⟨by decide,
    (nonconforming_type_cannot_instantiate_wrapper MalformedDigitalInput.shape (by decide)).1,
    (nonconforming_type_cannot_instantiate_wrapper MalformedDigitalInput.shape (by decide)).2⟩,
   ⟨by decide,
    (nonconforming_type_cannot_instantiate_wrapper AnalogSensor.shape (by decide)).1,
    (nonconforming_type_cannot_instantiate_wrapper AnalogSensor.shape (by decide)).2⟩⟩

/-- Counterexample to claim C2: the predicate the claim names,
is_digital_input_v, classifies DigitalSensor (whose read() returns bool)
as true, not false — the source itself annotates this evaluation with
the comment true at line 309. -/
theorem is_digital_input_v_digitalSensor_true :
    is_digital_input_v DigitalSensor.shape = true := by decide

/-- Claim C2 (amended): DigitalSensor, which exposes init() and read()
under the expected names but with read() returning bool, is classified
TRUE by the name-based predicates (is_digital_input_v and both SFINAE
traits); only the return-type-checking concept DigitalInputConcept
classifies it false, and that rejection is by return-type mismatch, not
name absence: the read() member call is well-formed, but no read member
returns int. -/
theorem digitalSensor_rejected_only_by_return_type :
    is_digital_input_v DigitalSensor.shape = true ∧
    is_digital_input_old_sfinae_type_trait DigitalSensor.shape = true ∧
    is_digital_input_new_sfinae_type_trait_v DigitalSensor.shape = true ∧
    DigitalInputConcept DigitalSensor.shape = false ∧
    callable DigitalSensor.shape "read" 0 = true ∧
    hasMethodRet DigitalSensor.shape "read" 0 RetTy.int = false := by decide

/-- Counterexample to claim C3: on the fixture DigitalSensor the
probe-based encoding says true while the return-type-checked contract
says false, so the encodings do not produce the same verdict as the
return-type-checked contract on every fixture. -/
theorem old_trait_disagrees_with_contract_on_digitalSensor :
    is_digital_input_old_sfinae_type_trait DigitalSensor.shape = true ∧
    DigitalInputConcept DigitalSensor.shape = false := by decide

/-- Claim C3 (amended): on every fixture (MockedDigitalInput,
MalformedDigitalInput, AnalogSensor, DigitalSensor) the three predicate
encodings produce the same verdict as each other; they also match the
return-type-checked contract on the first three fixtures, but on
DigitalSensor all three encodings say true while the return-type-checked
contract says false. -/
theorem three_encodings_agree_on_fixtures :
    (is_digital_input_old_sfinae_type_trait MockedDigitalInput.shape
        = is_digital_input_v MockedDigitalInput.shape ∧
      is_digital_input_new_sfinae_type_trait_v MockedDigitalInput.shape
        = is_digital_input_v MockedDigitalInput.shape) ∧
    (is_digital_input_old_sfinae_type_trait MalformedDigitalInput.shape
        = is_digital_input_v MalformedDigitalInput.shape ∧
      is_digital_input_new_sfinae_type_trait_v MalformedDigitalInput.shape
        = is_digital_input_v MalformedDigitalInput.shape) ∧
    (is_digital_input_old_sfinae_type_trait AnalogSensor.shape
        = is_digital_input_v AnalogSensor.shape ∧
      is_digital_input_new_sfinae_type_trait_v AnalogSensor.shape
        = is_digital_input_v AnalogSensor.shape) ∧
    (is_digital_input_old_sfinae_type_trait DigitalSensor.shape
        = is_digital_input_v DigitalSensor.shape ∧
      is_digital_input_new_sfinae_type_trait_v DigitalSensor.shape
        = is_digital_input_v DigitalSensor.shape) ∧
    (is_digital_input_v MockedDigitalInput.shape
        = DigitalInputConcept MockedDigitalInput.shape ∧
      is_digital_input_v MalformedDigitalInput.shape
        = DigitalInputConcept MalformedDigitalInput.shape ∧
      is_digital_input_v AnalogSensor.shape
        = DigitalInputConcept AnalogSensor.shape) ∧
    (is_digital_input_v DigitalSensor.shape = true ∧
      DigitalInputConcept DigitalSensor.shape = false) := by decide

/-- Claim C4: over a MockedDigitalInput whose state was set to any
integer V by set_value, both gated wrappers return exactly V from read(),
and both wrappers are instantiable over MockedDigitalInput since its
shape passes both gates. -/
theorem wrapper_read_returns_set_value (V : Int) (d : MockedDigitalInput) :
    (ButtonWithSfinae.read MockedDigitalInput.collab (d.set_value V)).2 = V ∧
    (ButtonWithConcept.read MockedDigitalInput.collab (d.set_value V)).2 = V ∧
    is_digital_input_new_sfinae_type_trait_v MockedDigitalInput.shape = true ∧
    DigitalInputConcept MockedDigitalInput.shape = true :=
  ⟨rfl, rfl, by decide, by decide⟩

/-- Claim C5: processSensor is defined for every candidate and has no
error path.  When the shape exposes both members (so the capability
predicate holds) it takes the digital path: it invokes init then read and
reports the value converted to bool; when the predicate is false it takes
the fallback path: it invokes neither member, leaves the sensor state
unchanged, and reports the type as unsupported. -/
theorem processSensor_total_dispatch {σ : Type} (M : Candidate σ) (s : σ) :
    (∀ (hi : callable M.shape "init" 0 = true)
        (hr : callable M.shape "read" 0 = true),
        processSensor M s =
          ((M.readFn hr (M.initFn hi s)).1,
            [MethodCall.init, MethodCall.read],
            Report.digitalData ((M.readFn hr (M.initFn hi s)).2 != 0))) ∧
    (is_digital_input_v M.shape = false →
        processSensor M s = (s, [], Report.notDigital)) := by
  constructor
  · intro hi hr
    have hv : is_digital_input_v M.shape = true := by
      simp only [is_digital_input_v, Bool.and_eq_true]
      exact ⟨hi, hr⟩
    simp only [processSensor]
    rw [dif_pos hv]
  · intro h
    simp only [processSensor]
    rw [dif_neg]
    simp [h]

/-- Witness for C5: the digital path on DigitalSensor (init prints its
line, read yields true) and the fallback path on AnalogSensor (no member
invoked, state unchanged). -/
theorem processSensor_total_dispatch_witness :
    processSensor DigitalSensor.candidate ⟨[]⟩ =
      (⟨["Sensor initialized"]⟩, [MethodCall.init, MethodCall.read],
        Report.digitalData true) ∧
    processSensor AnalogSensor.candidate AnalogSensor.mk =
      (AnalogSensor.mk, [], Report.notDigital) := by
  constructor
  · exact ((processSensor_total_dispatch DigitalSensor.candidate ⟨[]⟩).1
      (by decide) (by decide)).trans (by decide)
  · exact (processSensor_total_dispatch AnalogSensor.candidate AnalogSensor.mk).2
      (by decide)

/-- Claim C6: the conforming mock MockedDigitalInput is classified true
by all three predicate encodings simultaneously. -/
theorem mocked_true_under_all_three_encodings :
    is_digital_input_old_sfinae_type_trait MockedDigitalInput.shape = true ∧
    is_digital_input_new_sfinae_type_trait_v MockedDigitalInput.shape = true ∧
    is_digital_input_v MockedDigitalInput.shape = true := by decide

/-- Claim C7: the absent-operations fixture MalformedDigitalInput and the
structural near miss AnalogSensor are classified false by all three
predicate encodings simultaneously. -/
theorem nonconforming_false_under_all_three_encodings :
    is_digital_input_old_sfinae_type_trait MalformedDigitalInput.shape = false ∧
    is_digital_input_new_sfinae_type_trait_v MalformedDigitalInput.shape = false ∧
    is_digital_input_v MalformedDigitalInput.shape = false ∧
    is_digital_input_old_sfinae_type_trait AnalogSensor.shape = false ∧
    is_digital_input_new_sfinae_type_trait_v AnalogSensor.shape = false ∧
    is_digital_input_v AnalogSensor.shape = false := by decide

/-- Claim C8: the verdict of every predicate encoding is a pure function
of the structural shape alone: two candidate models with the same shape
receive the same verdict under each encoding, whatever their state types,
member semantics or run-time states are. -/
theorem verdict_depends_only_on_shape {σ₁ σ₂ : Type}
    (M₁ : Candidate σ₁) (M₂ : Candidate σ₂) (h : M₁.shape = M₂.shape) :
    is_digital_input_v M₁.shape = is_digital_input_v M₂.shape ∧
    is_digital_input_old_sfinae_type_trait M₁.shape
      = is_digital_input_old_sfinae_type_trait M₂.shape ∧
    is_digital_input_new_sfinae_type_trait_v M₁.shape
      = is_digital_input_new_sfinae_type_trait_v M₂.shape := by
  rw [h]
  exact ⟨rfl, rfl, rfl⟩

/-- Witness for C8: the MockedDigitalInput candidate and a candidate with
the same shape but a different state type and different member semantics
receive the same verdicts. -/
theorem verdict_depends_only_on_shape_witness :
    is_digital_input_v MockedDigitalInput.candidate.shape
      = is_digital_input_v mockedShapeUnitCandidate.shape ∧
    is_digital_input_old_sfinae_type_trait MockedDigitalInput.candidate.shape
      = is_digital_input_old_sfinae_type_trait mockedShapeUnitCandidate.shape ∧
    is_digital_input_new_sfinae_type_trait_v MockedDigitalInput.candidate.shape
      = is_digital_input_new_sfinae_type_trait_v mockedShapeUnitCandidate.shape :=
  verdict_depends_only_on_shape MockedDigitalInput.candidate mockedShapeUnitCandidate rfl

/-- Claim C9: over any conforming collaborator model (shape accepted by
the return-type-checking gate) in any state, ButtonWithSfinae and
ButtonWithConcept return the same value from read and have the same
effect from init: both forward the single collaborator operation
unchanged. -/
theorem wrappers_behaviorally_equivalent {σ : Type} (M : Collaborator σ)
    (_hC : DigitalInputConcept M.shape = true) (s : σ) :
    ButtonWithSfinae.read M s = ButtonWithConcept.read M s ∧
    ButtonWithSfinae.init M s = ButtonWithConcept.init M s :=
  ⟨rfl, rfl⟩

/-- Witness for C9: the two wrappers agree over a MockedDigitalInput
holding 5. -/
theorem wrappers_behaviorally_equivalent_witness :
    ButtonWithSfinae.read MockedDigitalInput.collab ⟨5⟩
      = ButtonWithConcept.read MockedDigitalInput.collab ⟨5⟩ ∧
    ButtonWithSfinae.init MockedDigitalInput.collab ⟨5⟩
      = ButtonWithConcept.init MockedDigitalInput.collab ⟨5⟩ :=
  wrappers_behaviorally_equivalent MockedDigitalInput.collab (by decide) ⟨5⟩

/-- Claim C10: reading through the gated wrapper never modifies the
MockedDigitalInput state: after set_value V, a read leaves the state
unchanged, and any sequence of n consecutive wrapper reads returns V
every time while the state stays equal to the state set_value produced. -/
theorem wrapper_read_preserves_state (V : Int) (d : MockedDigitalInput) (n : Nat) :
    (MockedDigitalInput.read (d.set_value V)).1 = d.set_value V ∧
    ButtonWithSfinae.readSeq MockedDigitalInput.collab n (d.set_value V)
      = (d.set_value V, List.replicate n V) := by
  refine ⟨rfl, ?_⟩
  induction n with
  | zero => rfl
  | succ k ih =>
      have hread : ButtonWithSfinae.read MockedDigitalInput.collab (d.set_value V)
          = (d.set_value V, V) := rfl
      simp only [ButtonWithSfinae.readSeq, hread, ih, List.replicate_succ]
